import Mathlib

/-!
Verification of the protocol dispatcher of `src/mcp-rest.ts`: the MCP
request dispatcher, response normalizer, HTTP boundary and lifecycle guard
of the puppeteer-real-browser MCP server.

The tool handlers, the tool-definitions module and the process-cleanup
module are external collaborators of this file (they live in repository
modules outside `src/`); they are modelled abstractly (handlers as
universally quantified functions) or from the spec where the spec fixes
their behavior, and each such definition says so in its doc comment.
-/

/-- A JavaScript/JSON value, as carried in protocol messages and tool
argument payloads. -/
inductive Json where
  | null : Json
  | bool (b : Bool) : Json
  | num (n : Int) : Json
  | str (s : String) : Json
  | arr (elems : List Json) : Json
  | obj (fields : List (String × Json)) : Json

/-- JavaScript truthiness test: `null`, `false`, `0` and `""` are falsy;
objects and arrays are always truthy. -/
def Json.isFalsy : Json → Bool
  | .null => true
  | .bool b => !b
  | .num n => n == 0
  | .str s => s == ""
  | .arr _ => false
  | .obj _ => false

mutual

/-- JavaScript `String(v)` conversion of a value. -/
def jsString : Json → String
  | .null => "null"
  | .bool b => if b then "true" else "false"
  | .num n => toString n
  | .str s => s
  | .arr elems => jsStringList elems
  | .obj _ => "[object Object]"

/-- JavaScript array stringification: elements joined by commas. -/
def jsStringList : List Json → String
  | [] => ""
  | [x] => jsString x
  | x :: xs => jsString x ++ "," ++ jsStringList xs

end

/-- The JavaScript expression `a || d` for an argument `a` that may be
`undefined` (`none`): the default is used when `a` is absent or falsy. -/
def jsOr (a : Option Json) (d : Json) : Json :=
  match a with
  | none => d
  | some v => if v.isFalsy then d else v

/-- A raised JavaScript condition: either an `Error` instance, carrying a
`.message`, or any other thrown value. -/
inductive Thrown where
  | jsError (message : String) : Thrown
  | other (v : Json) : Thrown

/-- The failure message derived from a thrown condition, as computed by the
dispatcher's catch block: `error instanceof Error ? error.message :
String(error)` (src/mcp-rest.ts line 103). -/
def errorMessage : Thrown → String
  | .jsError m => m
  | .other v => jsString v

/-- One content block of a tool response: `{type, text}`. -/
structure ContentBlock where
  type : String
  text : String
deriving DecidableEq, Repr

/-- The uniform response envelope every tool outcome is normalized into:
`{ content, isError }`; `isError` may be absent (`none`). -/
structure ToolCallResponse where
  content : List ContentBlock
  isError : Option Bool
deriving DecidableEq, Repr

/-- The enumerated set of tool identifiers (the members of `TOOL_NAMES`
switched over in src/mcp-rest.ts lines 65-101). -/
inductive ToolName where
  | BROWSER_INIT
  | NAVIGATE
  | GET_CONTENT
  | CLICK
  | TYPE
  | WAIT
  | BROWSER_CLOSE
  | SOLVE_CAPTCHA
  | RANDOM_SCROLL
  | FIND_SELECTOR
  | SAVE_CONTENT_AS_MARKDOWN
deriving DecidableEq, Repr

/-- All eleven tool names, in the order of the dispatcher's switch. -/
def allToolNames : List ToolName :=
  [.BROWSER_INIT, .NAVIGATE, .GET_CONTENT, .CLICK, .TYPE, .WAIT,
   .BROWSER_CLOSE, .SOLVE_CAPTCHA, .RANDOM_SCROLL, .FIND_SELECTOR,
   .SAVE_CONTENT_AS_MARKDOWN]

/-- Modelled from the spec: the string values of the `TOOL_NAMES` constants
live in `utils/tool-definitions.ts`, which is not under `src/`; the spec's
collaborator contract (§6) names the handlers browser-init, browser-close,
navigate, get-content, click, type, wait, solve-captcha, random-scroll,
find-selector and save-content-as-markdown, matching the §8 example request
`{name: "navigate", ...}`. Only distinctness of the eleven strings matters
to the claims below. -/
def TOOL_NAMES : ToolName → String
  | .BROWSER_INIT => "browser-init"
  | .NAVIGATE => "navigate"
  | .GET_CONTENT => "get-content"
  | .CLICK => "click"
  | .TYPE => "type"
  | .WAIT => "wait"
  | .BROWSER_CLOSE => "browser-close"
  | .SOLVE_CAPTCHA => "solve-captcha"
  | .RANDOM_SCROLL => "random-scroll"
  | .FIND_SELECTOR => "find-selector"
  | .SAVE_CONTENT_AS_MARKDOWN => "save-content-as-markdown"

/-- The routing lookup performed by the dispatcher's `switch (name)`
statement: the request's `name` string is compared against each
`TOOL_NAMES` member; no match falls into the `default` branch (`none`). -/
def parseToolName (s : String) : Option ToolName :=
  allToolNames.find? (fun t => TOOL_NAMES t == s)

/-- The bound handler functions (external collaborators imported in
src/mcp-rest.ts lines 19-23; their implementations live outside `src/`).
`handleBrowserInit` and `handleGetContent` take a defined argument object;
`handleBrowserClose` and `handleRandomScroll` take no argument; the
remaining handlers receive the raw, possibly-undefined argument payload.
Each handler either returns an envelope or raises. -/
structure HandlerEnv where
  handleBrowserInit : Json → Except Thrown ToolCallResponse
  handleNavigate : Option Json → Except Thrown ToolCallResponse
  handleGetContent : Json → Except Thrown ToolCallResponse
  handleClick : Option Json → Except Thrown ToolCallResponse
  handleType : Option Json → Except Thrown ToolCallResponse
  handleWait : Option Json → Except Thrown ToolCallResponse
  handleBrowserClose : Unit → Except Thrown ToolCallResponse
  handleSolveCaptcha : Option Json → Except Thrown ToolCallResponse
  handleRandomScroll : Unit → Except Thrown ToolCallResponse
  handleFindSelector : Option Json → Except Thrown ToolCallResponse
  handleSaveContentAsMarkdown : Option Json → Except Thrown ToolCallResponse

/-- Record of one handler invocation: which handler was called, and with
what — `noArg` when the handler was invoked with zero arguments,
`withArg a` when it was invoked with the (possibly undefined) value `a`. -/
inductive HandlerArg where
  | noArg : HandlerArg
  | withArg (a : Option Json) : HandlerArg

/-- The body of the dispatcher's `switch` for a matched tool name
(src/mcp-rest.ts lines 65-97): returns the handler's outcome together with
the record of the one invocation performed. `BROWSER_INIT` and
`GET_CONTENT` receive `args || {}`; `BROWSER_CLOSE` and `RANDOM_SCROLL`
are invoked with no arguments; all others receive `args` unmodified. -/
def runTool (env : HandlerEnv) (t : ToolName) (args : Option Json) :
    Except Thrown ToolCallResponse × (ToolName × HandlerArg) :=
  match t with
  | .BROWSER_INIT =>
      (env.handleBrowserInit (jsOr args (Json.obj [])),
       (.BROWSER_INIT, .withArg (some (jsOr args (Json.obj [])))))
  | .NAVIGATE => (env.handleNavigate args, (.NAVIGATE, .withArg args))
  | .GET_CONTENT =>
      (env.handleGetContent (jsOr args (Json.obj [])),
       (.GET_CONTENT, .withArg (some (jsOr args (Json.obj [])))))
  | .CLICK => (env.handleClick args, (.CLICK, .withArg args))
  | .TYPE => (env.handleType args, (.TYPE, .withArg args))
  | .WAIT => (env.handleWait args, (.WAIT, .withArg args))
  | .BROWSER_CLOSE => (env.handleBrowserClose (), (.BROWSER_CLOSE, .noArg))
  | .SOLVE_CAPTCHA => (env.handleSolveCaptcha args, (.SOLVE_CAPTCHA, .withArg args))
  | .RANDOM_SCROLL => (env.handleRandomScroll (), (.RANDOM_SCROLL, .noArg))
  | .FIND_SELECTOR => (env.handleFindSelector args, (.FIND_SELECTOR, .withArg args))
  | .SAVE_CONTENT_AS_MARKDOWN =>
      (env.handleSaveContentAsMarkdown args, (.SAVE_CONTENT_AS_MARKDOWN, .withArg args))

/-- The failure envelope built by the dispatcher's catch block
(src/mcp-rest.ts lines 106-114). -/
def toolFailureEnvelope (message : String) : ToolCallResponse :=
  { content := [{ type := "text", text := "❌ Tool execution failed: " ++ message }],
    isError := some true }

/-- The response normalizer (the dispatcher's try/catch, src/mcp-rest.ts
lines 64 and 102-115): a handler's returned envelope passes through
unchanged; a raised condition becomes the failure envelope built from its
message. The invocation record is kept either way. -/
def normalizeOutcome :
    Except Thrown ToolCallResponse × (ToolName × HandlerArg) →
      ToolCallResponse × List (ToolName × HandlerArg)
  | (.ok r, call) => (r, [call])
  | (.error e, call) => (toolFailureEnvelope (errorMessage e), [call])

/-- The complete CallTool request handler (src/mcp-rest.ts lines 60-116):
route by name, invoke the matched handler, and normalize any raised
condition — including the `default` branch's `Error("Unknown tool: " +
name)` — into the failure envelope. The result type is total: no failure
escapes the dispatcher. The second component lists the handler invocations
performed (empty for an unknown name). -/
def dispatchTool (env : HandlerEnv) (name : String) (args : Option Json) :
    ToolCallResponse × List (ToolName × HandlerArg) :=
  match parseToolName name with
  | some t => normalizeOutcome (runTool env t args)
  | none =>
      (toolFailureEnvelope (errorMessage (.jsError ("Unknown tool: " ++ name))), [])

/-- One entry of the static tool catalog: `{ name, description, inputSchema }`. -/
structure ToolDescriptor where
  name : String
  description : String
  inputSchema : Json

/-- The static data imported from `utils/tool-definitions.ts`
(src/mcp-rest.ts line 14): server identity, capability set and tool
catalog. Immutable after startup; the dispatcher below reads, never
writes, them. -/
structure ServerConfig where
  SERVER_INFO : Json
  CAPABILITIES : Json
  TOOLS : List ToolDescriptor

/-- The handshake response shape returned by the initialize handler. -/
structure HandshakeResult where
  protocolVersion : String
  capabilities : Json
  serverInfo : Json

/-- The initialize handler (src/mcp-rest.ts lines 32-41): reads the
caller's `request.params.protocolVersion` and returns it together with the
static `CAPABILITIES` and `SERVER_INFO`. -/
def handshakeHandler (cfg : ServerConfig) (protocolVersion : String) : HandshakeResult :=
  { protocolVersion := protocolVersion,
    capabilities := cfg.CAPABILITIES,
    serverInfo := cfg.SERVER_INFO }

/-- The ListTools handler (src/mcp-rest.ts lines 44-47): returns
`{ tools: TOOLS }`. -/
def listToolsHandler (cfg : ServerConfig) : List ToolDescriptor :=
  cfg.TOOLS

/-- The ListResources handler (src/mcp-rest.ts lines 50-52): returns
`{ resources: [] }`. -/
def listResourcesHandler : List Json := []

/-- The ListPrompts handler (src/mcp-rest.ts lines 55-57): returns
`{ prompts: [] }`. -/
def listPromptsHandler : List Json := []

/-- A decoded protocol message, by kind: handshake, the three catalog
queries, or a tool invocation `{name, arguments}`. -/
inductive McpMessage where
  | handshake (protocolVersion : String) : McpMessage
  | listTools : McpMessage
  | listResources : McpMessage
  | listPrompts : McpMessage
  | callTool (name : String) (args : Option Json) : McpMessage

/-- The response produced for each message kind by the registered
request handlers. -/
inductive McpResponse where
  | initResult (r : HandshakeResult) : McpResponse
  | toolsResult (tools : List ToolDescriptor) : McpResponse
  | resourcesResult (resources : List Json) : McpResponse
  | promptsResult (prompts : List Json) : McpResponse
  | toolCallResult (r : ToolCallResponse) : McpResponse

/-- The server's per-message behavior: the five `setRequestHandler`
registrations of src/mcp-rest.ts, keyed by message kind. A pure function
of the static config, the handler bindings and the message — no state
survives between messages. -/
def handleMessage (cfg : ServerConfig) (env : HandlerEnv) : McpMessage → McpResponse
  | .handshake v => .initResult (handshakeHandler cfg v)
  | .listTools => .toolsResult (listToolsHandler cfg)
  | .listResources => .resourcesResult listResourcesHandler
  | .listPrompts => .promptsResult listPromptsHandler
  | .callTool name args => .toolCallResult (dispatchTool env name args).1

/-- An HTTP response body: plain text (`res.send`) or JSON (`res.json`
or the transport's JSON encoding). -/
inductive HttpBody where
  | text (s : String) : HttpBody
  | jsonOf (r : McpResponse) : HttpBody
  | jsonErr (fields : List (String × Json)) : HttpBody

/-- An HTTP response: status code and body. -/
structure HttpResponse where
  status : Nat
  body : HttpBody

/-- Modelled from the spec: `transport.handleRequest` (the session
transport, an external collaborator) binds the exchange to a session and,
per §6, writes the dispatcher's envelope JSON-encoded with HTTP 200 on
protocol-level success, raising only on transport-level decode/transmit
faults — represented here by the incoming exchange already being a fault
(`Except.error`). -/
def transportHandleRequest (cfg : ServerConfig) (env : HandlerEnv)
    (exchange : Except Thrown McpMessage) : Except Thrown HttpResponse :=
  match exchange with
  | .error e => .error e
  | .ok msg => .ok { status := 200, body := .jsonOf (handleMessage cfg env msg) }

/-- The fixed 500 response written by the `POST /mcp` route's catch block
(src/mcp-rest.ts line 130). -/
def internalServerErrorResponse : HttpResponse :=
  { status := 500, body := .jsonErr [("error", Json.str "Internal Server Error")] }

/-- The `POST /mcp` route (src/mcp-rest.ts lines 125-132): await
`transport.handleRequest`; if it raises, log and answer
`500 {error: "Internal Server Error"}`; otherwise the response the
transport wrote stands. -/
def appPostMcp (cfg : ServerConfig) (env : HandlerEnv)
    (exchange : Except Thrown McpMessage) : HttpResponse :=
  match transportHandleRequest cfg env exchange with
  | .ok r => r
  | .error _ => internalServerErrorResponse

/-- The `GET /health` route's fixed response (src/mcp-rest.ts
lines 134-136). -/
def healthResponse : HttpResponse :=
  { status := 200, body := .text "Server is healthy" }

/-- An HTTP request reaching the express app: a protocol exchange posted
to `/mcp`, or a liveness probe on `/health`. -/
inductive HttpRequest where
  | postMcp (exchange : Except Thrown McpMessage) : HttpRequest
  | getHealth : HttpRequest

/-- The express app's routing (src/mcp-rest.ts lines 125-136): each
request is answered by a pure function of the static config and handler
bindings; no route writes any state. -/
def appHandle (cfg : ServerConfig) (env : HandlerEnv) : HttpRequest → HttpResponse
  | .postMcp exchange => appPostMcp cfg env exchange
  | .getHealth => healthResponse

/-- A whole request history processed in order: because every route is a
pure read, the server's answer to each request is independent of the
requests before it. -/
def appRunList (cfg : ServerConfig) (env : HandlerEnv) (reqs : List HttpRequest) :
    List HttpResponse :=
  reqs.map (appHandle cfg env)

/-- Modelled from the spec: the tool registry `TOOLS` lives in
`utils/tool-definitions.ts`, outside `src/`; per §3 and §4.1 it is a
static catalog holding one `ToolDescriptor` per tool name. Descriptor
bodies beyond the name are irrelevant to the claims below. -/
def TOOLS_model : List ToolDescriptor :=
  allToolNames.map (fun t =>
    { name := TOOL_NAMES t, description := TOOL_NAMES t, inputSchema := Json.obj [] })

/-- A process-fatal condition: a termination signal, an uncaught
exception, or an unhandled promise rejection. -/
inductive FatalEvent where
  | sigint : FatalEvent
  | sigterm : FatalEvent
  | uncaughtException (e : Thrown) : FatalEvent
  | unhandledRejection (reason : Json) : FatalEvent

/-- An observable action taken on the way toward process exit. -/
inductive ProcAction where
  | log (message : String) : ProcAction
  | closeBrowser : ProcAction
  | forceKillAllChromeProcesses : ProcAction
  | proceedTowardExit : ProcAction

/-- The log line each fatal condition produces (signals are named; the
uncaught-failure lines follow src/mcp-rest.ts lines 158-163). -/
def describeFatalEvent : FatalEvent → String
  | .sigint => "SIGINT"
  | .sigterm => "SIGTERM"
  | .uncaughtException e => "Uncaught Exception: " ++ errorMessage e
  | .unhandledRejection reason => "Unhandled Rejection: " ++ jsString reason

/-- The cleanup callback registered with `setupProcessCleanup`
(src/mcp-rest.ts lines 139-143): log, close the shared browser, then
force-kill orphaned browser processes, in that order. -/
def cleanupCallback : List ProcAction :=
  [.log "Process cleanup triggered", .closeBrowser, .forceKillAllChromeProcesses]

/-- Modelled from the spec: `setupProcessCleanup` lives in
`utils/core-infrastructure.ts`, outside `src/`; per §4.5 the lifecycle
guard registers for termination signals and otherwise-unhandled
asynchronous failures, and on any of them logs the condition, runs the
supplied cleanup callback, and only then lets the process proceed toward
exit. -/
def lifecycleGuard (callback : List ProcAction) (e : FatalEvent) : List ProcAction :=
  .log (describeFatalEvent e) :: callback ++ [.proceedTowardExit]

/-- A benign success envelope used by the concrete handler bindings
below. -/
def okEnvelope : ToolCallResponse :=
  { content := [{ type := "text", text := "ok" }], isError := none }

/-- A concrete argument object used as a sample payload. -/
def argObj0 : Json :=
  Json.obj [("foo", Json.str "bar")]

/-- A concrete handler environment: every handler succeeds except the
navigate handler, which raises `Error("Invalid URL")` — the §8 malformed
URL scenario. -/
def env0 : HandlerEnv :=
  { handleBrowserInit := fun _ => .ok okEnvelope,
    handleNavigate := fun _ => .error (.jsError "Invalid URL"),
    handleGetContent := fun _ => .ok okEnvelope,
    handleClick := fun _ => .ok okEnvelope,
    handleType := fun _ => .ok okEnvelope,
    handleWait := fun _ => .ok okEnvelope,
    handleBrowserClose := fun _ => .ok okEnvelope,
    handleSolveCaptcha := fun _ => .ok okEnvelope,
    handleRandomScroll := fun _ => .ok okEnvelope,
    handleFindSelector := fun _ => .ok okEnvelope,
    handleSaveContentAsMarkdown := fun _ => .ok okEnvelope }

/-- A concrete static configuration. -/
def cfg0 : ServerConfig :=
  { SERVER_INFO := Json.obj [("name", Json.str "puppeteer-real-browser-mcp-server")],
    CAPABILITIES := Json.obj [("tools", Json.obj [])],
    TOOLS := TOOLS_model }

/-- For a matched tool name the dispatcher is the normalized outcome of
the one bound handler. -/
theorem dispatchTool_known (env : HandlerEnv) (name : String)
    (args : Option Json) (t : ToolName) (h : parseToolName name = some t) :
    dispatchTool env name args = normalizeOutcome (runTool env t args) := by
  unfold dispatchTool
  rw [h]

/-- Normalization preserves the invocation record. -/
theorem normalizeOutcome_trace
    (out : Except Thrown ToolCallResponse × (ToolName × HandlerArg)) :
    (normalizeOutcome out).2 = [out.2] := by
  rcases out with ⟨res, call⟩
  cases res <;> rfl

/-- For a matched tool name, the dispatcher performs exactly the one
handler invocation recorded by `runTool`, whatever the handler's
outcome. -/
theorem dispatchTool_trace_known (env : HandlerEnv) (name : String)
    (args : Option Json) (t : ToolName) (h : parseToolName name = some t) :
    (dispatchTool env name args).2 = [(runTool env t args).2] := by
  rw [dispatchTool_known env name args t h, normalizeOutcome_trace]

/-- C1: whenever the matched handler raises, the dispatcher returns the
envelope `{ content: [{type: "text", text: "❌ Tool execution failed:
<message>"}], isError: true }`, where the message is the condition's
`.message` for an `Error` and its stringified form otherwise. The failure
never escapes the dispatcher: `dispatchTool` is total, every outcome an
envelope. -/
theorem dispatch_handler_failure_is_normalized (env : HandlerEnv)
    (name : String) (args : Option Json) (t : ToolName) (e : Thrown)
    (hparse : parseToolName name = some t)
    (hrun : (runTool env t args).1 = Except.error e) :
    (dispatchTool env name args).1 =
      { content := [{ type := "text",
                      text := "❌ Tool execution failed: " ++ errorMessage e }],
        isError := some true } ∧
    (∀ m, e = Thrown.jsError m → errorMessage e = m) ∧
    (∀ v, e = Thrown.other v → errorMessage e = jsString v) := by
  refine ⟨?_, ?_, ?_⟩
  · rw [dispatchTool_known env name args t hparse]
    rcases hr : runTool env t args with ⟨res, call⟩
    rw [hr] at hrun
    simp only at hrun
    rw [hrun]
    rfl
  · rintro m rfl
    rfl
  · rintro v rfl
    rfl

/-- C1 witness: the §8 malformed-URL scenario at concrete inputs — the
navigate handler of `env0` raises `Error("Invalid URL")` and the
dispatcher answers with the failure envelope. -/
theorem dispatch_handler_failure_is_normalized_witness :
    parseToolName "navigate" = some ToolName.NAVIGATE ∧
    (runTool env0 ToolName.NAVIGATE (some argObj0)).1 =
      Except.error (Thrown.jsError "Invalid URL") ∧
    (dispatchTool env0 "navigate" (some argObj0)).1 =
      { content := [{ type := "text",
                      text := "❌ Tool execution failed: Invalid URL" }],
        isError := some true } :=
  ⟨rfl, rfl,
   (dispatch_handler_failure_is_normalized env0 "navigate" (some argObj0)
     ToolName.NAVIGATE (Thrown.jsError "Invalid URL") rfl rfl).1⟩

/-- C2: a tool name absent from the routing table yields a normal
envelope with `isError: true`, no handler is invoked (empty invocation
record), and the HTTP boundary still answers 200 — never a transport
fault. -/
theorem dispatch_unknown_tool_is_error_envelope (cfg : ServerConfig)
    (env : HandlerEnv) (name : String) (args : Option Json)
    (h : parseToolName name = none) :
    dispatchTool env name args =
      (toolFailureEnvelope ("Unknown tool: " ++ name), []) ∧
    (dispatchTool env name args).1.isError = some true ∧
    appPostMcp cfg env (Except.ok (McpMessage.callTool name args)) =
      { status := 200,
        body := HttpBody.jsonOf (McpResponse.toolCallResult
          (toolFailureEnvelope ("Unknown tool: " ++ name))) } := by
  have hd : dispatchTool env name args =
      (toolFailureEnvelope ("Unknown tool: " ++ name), []) := by
    unfold dispatchTool
    rw [h]
    rfl
  refine ⟨hd, by rw [hd]; rfl, ?_⟩
  have h200 : appPostMcp cfg env (Except.ok (McpMessage.callTool name args)) =
      { status := 200,
        body := HttpBody.jsonOf (McpResponse.toolCallResult
          (dispatchTool env name args).1) } := rfl
  rw [h200, hd]

/-- C2 witness: the §8 `"unknown_tool"` scenario at concrete inputs. -/
theorem dispatch_unknown_tool_is_error_envelope_witness :
    parseToolName "unknown_tool" = none ∧
    dispatchTool env0 "unknown_tool" none =
      (toolFailureEnvelope "Unknown tool: unknown_tool", []) ∧
    appPostMcp cfg0 env0 (Except.ok (McpMessage.callTool "unknown_tool" none)) =
      { status := 200,
        body := HttpBody.jsonOf (McpResponse.toolCallResult
          (toolFailureEnvelope "Unknown tool: unknown_tool")) } := by
  refine ⟨rfl, ?_, ?_⟩
  · exact (dispatch_unknown_tool_is_error_envelope cfg0 env0 "unknown_tool" none rfl).1
  · exact (dispatch_unknown_tool_is_error_envelope cfg0 env0 "unknown_tool" none rfl).2.2

/-- C3: the handshake response echoes the caller's protocol version
exactly, for any version string, and carries the static capability set
and server identity unchanged. -/
theorem handshake_echoes_protocol_version (cfg : ServerConfig) (v : String) :
    (handshakeHandler cfg v).protocolVersion = v ∧
    (handshakeHandler cfg v).capabilities = cfg.CAPABILITIES ∧
    (handshakeHandler cfg v).serverInfo = cfg.SERVER_INFO :=
  ⟨rfl, rfl, rfl⟩

/-- C4: on `POST /mcp`, a non-raising transport exchange is answered with
HTTP 200 carrying the dispatcher's envelope (tool failures included);
HTTP 500 `{error: "Internal Server Error"}` is the answer exactly when
the transport-level handling raises. -/
theorem post_mcp_status_boundary (cfg : ServerConfig) (env : HandlerEnv)
    (exchange : Except Thrown McpMessage) :
    (∀ msg, exchange = Except.ok msg →
      appPostMcp cfg env exchange =
        { status := 200, body := HttpBody.jsonOf (handleMessage cfg env msg) }) ∧
    (∀ name args, (appPostMcp cfg env
        (Except.ok (McpMessage.callTool name args))).status = 200) ∧
    ((∃ e, exchange = Except.error e) ↔
      appPostMcp cfg env exchange = internalServerErrorResponse) := by
  refine ⟨?_, ?_, ?_, ?_⟩
  · rintro msg rfl
    rfl
  · intro name args
    rfl
  · rintro ⟨e, rfl⟩
    rfl
  · intro hresp
    cases exchange with
    | error e => exact ⟨e, rfl⟩
    | ok msg =>
        exfalso
        have : (200 : Nat) = 500 := congrArg HttpResponse.status hresp
        simp at this

/-- C4 witness: at concrete inputs, an `ok` exchange is answered 200 with
the dispatcher's envelope and a raising exchange is answered with the
fixed 500 response. -/
theorem post_mcp_status_boundary_witness :
    appPostMcp cfg0 env0 (Except.ok McpMessage.listTools) =
      { status := 200,
        body := HttpBody.jsonOf (handleMessage cfg0 env0 McpMessage.listTools) } ∧
    appPostMcp cfg0 env0 (Except.error (Thrown.jsError "decode fault")) =
      internalServerErrorResponse :=
  ⟨(post_mcp_status_boundary cfg0 env0 (Except.ok McpMessage.listTools)).1
      McpMessage.listTools rfl,
   (post_mcp_status_boundary cfg0 env0
      (Except.error (Thrown.jsError "decode fault"))).2.2.mp
      ⟨Thrown.jsError "decode fault", rfl⟩⟩

/-- C5 counterexample: at the concrete request naming BROWSER_CLOSE with a
non-empty argument mapping, the claim's prediction that "every other
tool's handler receives the raw argument mapping unmodified" fails — the
BROWSER_CLOSE handler is invoked with no arguments, not with the raw
mapping. -/
theorem dispatch_browser_close_not_raw_args :
    ¬ ((dispatchTool env0 "browser-close" (some argObj0)).2 =
        [(ToolName.BROWSER_CLOSE, HandlerArg.withArg (some argObj0))]) := by
  intro hcontra
  have hno : (dispatchTool env0 "browser-close" (some argObj0)).2 =
      [(ToolName.BROWSER_CLOSE, HandlerArg.noArg)] := by
    rw [dispatchTool_trace_known env0 "browser-close" (some argObj0)
      ToolName.BROWSER_CLOSE rfl]
    rfl
  rw [hno] at hcontra
  have hpair := List.head_eq_of_cons_eq hcontra
  have harg := congrArg Prod.snd hpair
  exact HandlerArg.noConfusion harg

/-- C5 amended: when the argument payload is undefined/absent, the
handlers for BROWSER_INIT and GET_CONTENT are passed an empty mapping
instead; every other tool's handler except the zero-argument tools
BROWSER_CLOSE and RANDOM_SCROLL (which are invoked with no arguments at
all) receives the raw argument mapping unmodified — no normalization and
no validation by the dispatcher. -/
theorem dispatch_argument_normalization (env : HandlerEnv) (name : String)
    (args : Option Json) (t : ToolName)
    (hparse : parseToolName name = some t) :
    ((t = ToolName.BROWSER_INIT ∨ t = ToolName.GET_CONTENT) → args = none →
      (dispatchTool env name args).2 =
        [(t, HandlerArg.withArg (some (Json.obj [])))]) ∧
    ((t = ToolName.BROWSER_CLOSE ∨ t = ToolName.RANDOM_SCROLL) →
      (dispatchTool env name args).2 = [(t, HandlerArg.noArg)]) ∧
    (t ≠ ToolName.BROWSER_INIT → t ≠ ToolName.GET_CONTENT →
      t ≠ ToolName.BROWSER_CLOSE → t ≠ ToolName.RANDOM_SCROLL →
      (dispatchTool env name args).2 = [(t, HandlerArg.withArg args)]) := by
  rw [dispatchTool_trace_known env name args t hparse]
  refine ⟨?_, ?_, ?_⟩
  · rintro (rfl | rfl) rfl <;> rfl
  · rintro (rfl | rfl) <;> rfl
  · intro h1 h2 h3 h4
    cases t
    · exact absurd rfl h1
    · rfl
    · exact absurd rfl h2
    · rfl
    · rfl
    · rfl
    · exact absurd rfl h3
    · rfl
    · exact absurd rfl h4
    · rfl
    · rfl

/-- C5 amended witness: at concrete inputs — an absent payload for
BROWSER_INIT is normalized to an empty mapping, and the click handler
receives a concrete payload unmodified. -/
theorem dispatch_argument_normalization_witness :
    parseToolName "browser-init" = some ToolName.BROWSER_INIT ∧
    (dispatchTool env0 "browser-init" none).2 =
      [(ToolName.BROWSER_INIT, HandlerArg.withArg (some (Json.obj [])))] ∧
    parseToolName "click" = some ToolName.CLICK ∧
    (dispatchTool env0 "click" (some argObj0)).2 =
      [(ToolName.CLICK, HandlerArg.withArg (some argObj0))] :=
  ⟨rfl,
   (dispatch_argument_normalization env0 "browser-init" none
      ToolName.BROWSER_INIT rfl).1 (Or.inl rfl) rfl,
   rfl,
   (dispatch_argument_normalization env0 "click" (some argObj0)
      ToolName.CLICK rfl).2.2
     (by intro h; exact ToolName.noConfusion h)
     (by intro h; exact ToolName.noConfusion h)
     (by intro h; exact ToolName.noConfusion h)
     (by intro h; exact ToolName.noConfusion h)⟩

/-- C6: on every process-fatal condition the lifecycle guard logs the
condition (never a silent crash) and runs the ordered best-effort cleanup
— close the shared browser resource, then force-kill orphaned browser
processes — before the process proceeds toward exit; the resulting action
sequence exhibits the order literally. -/
theorem fatal_event_cleanup_sequence (e : FatalEvent) :
    lifecycleGuard cleanupCallback e =
      [ProcAction.log (describeFatalEvent e),
       ProcAction.log "Process cleanup triggered",
       ProcAction.closeBrowser,
       ProcAction.forceKillAllChromeProcesses,
       ProcAction.proceedTowardExit] ∧
    (∃ s, ProcAction.log s ∈ lifecycleGuard cleanupCallback e) :=
  ⟨rfl, ⟨describeFatalEvent e, by simp [lifecycleGuard]⟩⟩

/-- C7: every tool name routes back to itself (exactly one handler
binding: dispatch on a tool's name performs exactly one invocation, of
that tool's handler) and the registry holds exactly one descriptor per
tool name; both are static facts about the startup-time definitions — the
dispatcher consults no registry at request time. -/
theorem registry_routing_consistency (env : HandlerEnv) (args : Option Json)
    (t : ToolName) :
    parseToolName (TOOL_NAMES t) = some t ∧
    (runTool env t args).2.1 = t ∧
    (dispatchTool env (TOOL_NAMES t) args).2 = [(runTool env t args).2] ∧
    (TOOLS_model.filter (fun d => d.name == TOOL_NAMES t)).length = 1 := by
  have hp : parseToolName (TOOL_NAMES t) = some t := by
    cases t <;> rfl
  refine ⟨hp, ?_, dispatchTool_trace_known env (TOOL_NAMES t) args t hp, ?_⟩
  · cases t <;> rfl
  · cases t <;> rfl

/-- C8: `GET /health` is a fixed pure response — 200 with the same
plain-text body whatever the prior request history; the route reads and
writes no state, so repeated calls are idempotent. -/
theorem health_idempotent_fixed_body (cfg : ServerConfig) (env : HandlerEnv)
    (pre : List HttpRequest) :
    appHandle cfg env HttpRequest.getHealth =
      { status := 200, body := HttpBody.text "Server is healthy" } ∧
    (appRunList cfg env (pre ++ [HttpRequest.getHealth])).getLast? =
      some { status := 200, body := HttpBody.text "Server is healthy" } := by
  constructor
  · rfl
  · unfold appRunList
    rw [List.map_append]
    simp [appHandle, healthResponse]

/-- C9: ListTools returns the static tool catalog unchanged, ListResources
and ListPrompts return empty collections, and each answer is independent
of any prior requests in the processed history. -/
theorem catalog_queries_static (cfg : ServerConfig) (env : HandlerEnv)
    (pre : List McpMessage) :
    handleMessage cfg env McpMessage.listTools = McpResponse.toolsResult cfg.TOOLS ∧
    handleMessage cfg env McpMessage.listResources = McpResponse.resourcesResult [] ∧
    handleMessage cfg env McpMessage.listPrompts = McpResponse.promptsResult [] ∧
    ((pre ++ [McpMessage.listTools]).map (handleMessage cfg env)).getLast? =
      some (McpResponse.toolsResult cfg.TOOLS) ∧
    ((pre ++ [McpMessage.listResources]).map (handleMessage cfg env)).getLast? =
      some (McpResponse.resourcesResult []) ∧
    ((pre ++ [McpMessage.listPrompts]).map (handleMessage cfg env)).getLast? =
      some (McpResponse.promptsResult []) := by
  refine ⟨rfl, rfl, rfl, ?_, ?_, ?_⟩ <;>
    (rw [List.map_append]; simp [handleMessage, listToolsHandler,
      listResourcesHandler, listPromptsHandler])

/-- C10: BROWSER_CLOSE and RANDOM_SCROLL are dispatched with no arguments
at all: two requests naming the same one of these tools but carrying
different argument mappings produce identical dispatch outcomes, and the
invocation record shows the handler called with zero arguments. -/
theorem zero_arg_tools_discard_arguments (env : HandlerEnv) (name : String)
    (args args' : Option Json) (t : ToolName)
    (hparse : parseToolName name = some t)
    (ht : t = ToolName.BROWSER_CLOSE ∨ t = ToolName.RANDOM_SCROLL) :
    dispatchTool env name args = dispatchTool env name args' ∧
    (dispatchTool env name args).2 = [(t, HandlerArg.noArg)] := by
  constructor
  · rw [dispatchTool_known env name args t hparse,
        dispatchTool_known env name args' t hparse]
    rcases ht with rfl | rfl <;> rfl
  · rw [dispatchTool_trace_known env name args t hparse]
    rcases ht with rfl | rfl <;> rfl

/-- C10 witness: at concrete inputs, the random-scroll dispatch outcome is
identical for a non-empty payload and an absent one, and the handler is
invoked with zero arguments. -/
theorem zero_arg_tools_discard_arguments_witness :
    parseToolName "random-scroll" = some ToolName.RANDOM_SCROLL ∧
    dispatchTool env0 "random-scroll" (some argObj0) =
      dispatchTool env0 "random-scroll" none ∧
    (dispatchTool env0 "random-scroll" (some argObj0)).2 =
      [(ToolName.RANDOM_SCROLL, HandlerArg.noArg)] :=
  ⟨rfl,
   (zero_arg_tools_discard_arguments env0 "random-scroll" (some argObj0) none
      ToolName.RANDOM_SCROLL rfl (Or.inr rfl)).1,
   (zero_arg_tools_discard_arguments env0 "random-scroll" (some argObj0) none
      ToolName.RANDOM_SCROLL rfl (Or.inr rfl)).2⟩
